import Mathlib

/-!
Verification of the dismatch discriminated-union library (runtime core).

The embedding below models the current implementation (the single-file
version containing `isUnion`, `is`, `dispatch`, `guard`, `map`, `mapAll`,
`match`, `matchWithDefault` and `createPipeHandlers`).  JavaScript values
are modelled by an inductive `JSValue`; object/array identity (reference
equality) is modelled by a `ref : Nat` tag carried by every heap value.
Errors thrown by the library are modelled with `Except JSError`.
`clearStackTrace` returns the very error object it is given (its unit test
asserts `toBe(error)`), so rethrowing through it is modelled as the error
propagating unchanged.
-/

namespace Dismatch

/-- A JavaScript runtime value, as far as the library can observe it.
Objects and arrays carry a `ref` tag modelling heap identity; arrays also
carry a property list because JavaScript arrays accept expando properties. -/
inductive JSValue where
  | undefined : JSValue
  | null : JSValue
  | bool (b : Bool) : JSValue
  | num (n : Int) : JSValue
  | str (s : String) : JSValue
  | arr (elems : List JSValue) (props : List (String × JSValue)) (ref : Nat) : JSValue
  | obj (fields : List (String × JSValue)) (ref : Nat) : JSValue

/-- An error thrown by the library, identified by its message. -/
structure JSError where
  message : String
deriving DecidableEq

/-- Message of the invalid-input error thrown by the validity guard. -/
def invalidInputMsg : String := "Data is not of type discriminated union!"

/-- Message of the incomplete-matcher error thrown by dispatch. -/
def matcherIncompleteMsg : String := "Matcher incomplete!"

/-- Message of the TypeError raised when reading a property of null. -/
def readNullMsg : String := "TypeError: Cannot read properties of null"

/-- Message of the TypeError raised when reading a property of undefined. -/
def readUndefMsg : String := "TypeError: Cannot read properties of undefined"

/-- The JavaScript typeof operator (note typeof null is the string object,
and arrays are also of typeof object). -/
def typeofJS : JSValue → String
  | .undefined => "undefined"
  | .null => "object"
  | .bool _ => "boolean"
  | .num _ => "number"
  | .str _ => "string"
  | .arr _ _ _ => "object"
  | .obj _ _ => "object"

/-- Lookup in a property list built by an object literal: a later binding
for the same key overwrites an earlier one, so the last binding wins. -/
def lookupKey {α : Type} : List (String × α) → String → Option α
  | [], _ => none
  | e :: rest, k =>
    match lookupKey rest k with
    | some v => some v
    | none => if e.1 == k then some e.2 else none

/-- Property read on a value that does not throw: yields undefined for
missing properties and for primitives.  Arrays expose length, expando
properties and index access; strings expose length. -/
def getPropD : JSValue → String → JSValue
  | .obj fields _, k => (lookupKey fields k).getD .undefined
  | .arr elems props _, k =>
      if k == "length" then .num elems.length
      else
        match lookupKey props k with
        | some v => v
        | none =>
          match k.toNat? with
          | some i => (elems.get? i).getD .undefined
          | none => .undefined
  | .str s, k => if k == "length" then .num s.length else .undefined
  | _, _ => .undefined

/-- JavaScript property access `v[k]`: throws a TypeError on null and
undefined, otherwise reads the property (undefined when absent). -/
def getProp (v : JSValue) (k : String) : Except JSError JSValue :=
  match v with
  | .null => .error ⟨readNullMsg⟩
  | .undefined => .error ⟨readUndefMsg⟩
  | _ => .ok (getPropD v k)

/-- JavaScript strict equality on the modelled values: primitives compare
by value, objects and arrays by reference tag. -/
def jsStrictEq : JSValue → JSValue → Bool
  | .undefined, .undefined => true
  | .null, .null => true
  | .bool a, .bool b => a == b
  | .num a, .num b => a == b
  | .str a, .str b => a == b
  | .arr _ _ r, .arr _ _ r' => r == r'
  | .obj _ r, .obj _ r' => r == r'
  | _, _ => false

/-- The validity predicate: typeof input is object, input is not null, and
the discriminant property holds a string.  Mirrors the source conjunction
literally, including the fact that arrays pass the typeof test. -/
def isUnion (input : JSValue) (discriminant : String) : Bool :=
  typeofJS input == "object" &&
  !(jsStrictEq input .null) &&
  (match getProp input discriminant with
   | .ok v => typeofJS v == "string"
   | .error _ => false)

/-- The variant-narrowing predicate: evaluates union[discriminant] === type.
The property access itself can throw (on null or undefined input), which the
Except models. -/
def isOp (union : JSValue) (tag : String) (discriminant : String) :
    Except JSError Bool :=
  (getProp union discriminant).map (fun p => jsStrictEq p (.str tag))

/-- A handler table: an object literal binding discriminant keys to handler
functions.  An entry bound to none models a key that is present but holds
undefined. -/
def HandlerTable (R : Type) : Type := List (String × Option (JSValue → R))

/-- The handler the dispatcher sees for a key: a present-but-undefined
binding behaves like an absent one (the source tests the lookup result for
truthiness). -/
def lookupHandler {R : Type} (H : HandlerTable R) (k : String) :
    Option (JSValue → R) :=
  (lookupKey H k).bind id

/-- ToPropertyKey coercion used for handlers[union[discriminant]].  Every
call site guards the union first, so the key is always a string; the other
branches are the standard JavaScript coercions and are unreachable there
(array stringification is simplified to the empty-array case). -/
def jsKeyString : JSValue → String
  | .str s => s
  | .undefined => "undefined"
  | .null => "null"
  | .bool b => if b then "true" else "false"
  | .num n => toString n
  | .arr _ _ _ => ""
  | .obj _ _ => "[object Object]"

/-- The dispatch primitive: resolve union[discriminant], look the result up
in the handler table; if a truthy handler is found apply it to the whole
union value; otherwise run the fallback when one was supplied, else throw
the incomplete-matcher error. -/
def dispatch {R : Type} (union : JSValue) (handlers : HandlerTable R)
    (discriminant : String) (fallback : Option (Unit → R)) :
    Except JSError R :=
  match getProp union discriminant with
  | .error e => .error e
  | .ok key =>
    match lookupHandler handlers (jsKeyString key) with
    | some fn => .ok (fn union)
    | none =>
      match fallback with
      | some fb => .ok (fb ())
      | none => .error ⟨matcherIncompleteMsg⟩

/-- The validation guard wrapping every public operation: throw the
invalid-input error unless the value passes isUnion, otherwise run the
continuation (clearStackTrace rethrows the same error object, so it is
invisible here). -/
def guard {α : Type} (input : JSValue) (discriminant : String)
    (fn : Unit → α) : Except JSError α :=
  if isUnion input discriminant then .ok (fn ()) else .error ⟨invalidInputMsg⟩

/-- The map operation (partial transformation): after the guard, a curried
function dispatching with a synthetic fallback returning the input itself. -/
def mapOp (input : JSValue) (discriminant : String) :
    Except JSError (HandlerTable JSValue → Except JSError JSValue) :=
  guard input discriminant (fun _ =>
    fun mapper => dispatch input mapper discriminant (some (fun _ => input)))

/-- The mapAll operation (exhaustive transformation): after the guard, a
curried function dispatching with no fallback. -/
def mapAllOp (input : JSValue) (discriminant : String) :
    Except JSError (HandlerTable JSValue → Except JSError JSValue) :=
  guard input discriminant (fun _ =>
    fun mapper => dispatch input mapper discriminant none)

/-- The match operation (exhaustive): after the guard, a curried function
dispatching with no fallback. -/
def matchOp {R : Type} (input : JSValue) (discriminant : String) :
    Except JSError (HandlerTable R → Except JSError R) :=
  guard input discriminant (fun _ =>
    fun matcher => dispatch input matcher discriminant none)

/-- The matchWithDefault operation: after the guard, a curried function
dispatching with the table entry named Default as the fallback.  Invoking
the fallback passes no arguments, so the handler parameter is undefined. -/
def matchWithDefaultOp {R : Type} (input : JSValue) (discriminant : String) :
    Except JSError (HandlerTable R → Except JSError R) :=
  guard input discriminant (fun _ =>
    fun matcher => dispatch input matcher discriminant
      ((lookupHandler matcher "Default").map
        (fun d => fun _ : Unit => d JSValue.undefined)))

/-- Applying match value-first then table, as in match(input)(handlers). -/
def matchRun {R : Type} (input : JSValue) (discriminant : String)
    (H : HandlerTable R) : Except JSError R :=
  (matchOp input discriminant).bind (fun g => g H)

/-- Applying matchWithDefault value-first then table. -/
def matchWithDefaultRun {R : Type} (input : JSValue) (discriminant : String)
    (H : HandlerTable R) : Except JSError R :=
  (matchWithDefaultOp input discriminant).bind (fun g => g H)

/-- Applying map value-first then table. -/
def mapRun (input : JSValue) (discriminant : String)
    (M : HandlerTable JSValue) : Except JSError JSValue :=
  (mapOp input discriminant).bind (fun g => g M)

/-- Applying mapAll value-first then table. -/
def mapAllRun (input : JSValue) (discriminant : String)
    (M : HandlerTable JSValue) : Except JSError JSValue :=
  (mapAllOp input discriminant).bind (fun g => g M)

/-- The object returned by createPipeHandlers: four handlers-first methods.
Field names carry a pipe prefix because match is reserved in Lean. -/
structure PipeHandlers (R : Type) where
  pipeMatch : HandlerTable R → JSValue → Except JSError R
  pipeMatchWithDefault : HandlerTable R → JSValue → Except JSError R
  pipeMap : HandlerTable JSValue → JSValue → Except JSError JSValue
  pipeMapAll : HandlerTable JSValue → JSValue → Except JSError JSValue

/-- The binding factory: each method takes the handler table first and
returns a function that performs the corresponding direct operation on the
value with the discriminant fixed at construction time, exactly as the
source delegates to the four public operations. -/
def createPipeHandlers (R : Type) (discriminant : String) : PipeHandlers R where
  pipeMatch := fun handlers input =>
    (matchOp input discriminant).bind (fun g => g handlers)
  pipeMatchWithDefault := fun handlers input =>
    (matchWithDefaultOp input discriminant).bind (fun g => g handlers)
  pipeMap := fun handlers input =>
    (mapOp input discriminant).bind (fun g => g handlers)
  pipeMapAll := fun handlers input =>
    (mapAllOp input discriminant).bind (fun g => g handlers)

/-- Concrete value from the shape examples: a circle of radius five. -/
def vCircle : JSValue := .obj [("type", .str "circle"), ("radius", .num 5)] 0

/-- Concrete value from the shape examples: a four by six rectangle. -/
def vRect : JSValue :=
  .obj [("type", .str "rectangle"), ("width", .num 4), ("height", .num 6)] 1

/-- Concrete value from the shape examples: a triangle. -/
def vTriangle : JSValue :=
  .obj [("type", .str "triangle"), ("base", .num 10), ("height", .num 3)] 2

/-- A plain object with no discriminant field. -/
def vEmpty : JSValue := .obj [] 3

/-- An array given a string-valued expando property at the key type. -/
def arrWithType : JSValue := .arr [] [("type", .str "x")] 4

/-- Handler reading the radius field off the value it receives. -/
def radiusHandler : JSValue → JSValue := fun x => getPropD x "radius"

/-- Handler ignoring its argument and returning zero. -/
def zeroHandler : JSValue → JSValue := fun _ => .num 0

/-- Handler reading the discriminant field off the value it receives. -/
def typeReader : JSValue → JSValue := fun x => getPropD x "type"

/-- Handler ignoring its argument and returning the string other. -/
def otherHandler : JSValue → JSValue := fun _ => .str "other"

/-- A table handling circle and rectangle. -/
def matcherCR : HandlerTable JSValue :=
  [("circle", some radiusHandler), ("rectangle", some zeroHandler)]

/-- A table handling only circle, with the zero handler. -/
def circleOnlyMapper : HandlerTable JSValue := [("circle", some zeroHandler)]

/-- A table whose only circle handler reads the discriminant field. -/
def circleTypeReaderMapper : HandlerTable JSValue :=
  [("circle", some typeReader)]

/-- A table whose circle entry is present but bound to undefined. -/
def undefEntryTable : HandlerTable JSValue := [("circle", none)]

/-- A table with an undefined circle entry and a Default handler. -/
def undefEntryWithDefault : HandlerTable JSValue :=
  [("circle", none), ("Default", some otherHandler)]

/-- A partial table handling only circle with a constant string. -/
def circleLabelTable : HandlerTable JSValue :=
  [("circle", some (fun _ => .str "c"))]

theorem lookupHandler_none_of_undef {R : Type} {H : HandlerTable R} {s : String}
    (h : lookupKey H s = some none) : lookupHandler H s = none := by
  simp [lookupHandler, h]

theorem guard_valid {α : Type} {v : JSValue} {dc : String}
    (h : isUnion v dc = true) (f : Unit → α) : guard v dc f = .ok (f ()) := by
  simp [guard, h]

theorem guard_invalid {α : Type} {v : JSValue} {dc : String}
    (h : isUnion v dc = false) (f : Unit → α) :
    guard v dc f = .error ⟨invalidInputMsg⟩ := by
  simp [guard, h]

theorem dispatch_found {R : Type} {v : JSValue} {dc s : String}
    {H : HandlerTable R} {f : JSValue → R}
    (hk : getProp v dc = .ok (.str s)) (hf : lookupHandler H s = some f)
    (fb : Option (Unit → R)) : dispatch v H dc fb = .ok (f v) := by
  simp [dispatch, hk, jsKeyString, hf]

theorem dispatch_fallback {R : Type} {v : JSValue} {dc s : String}
    {H : HandlerTable R}
    (hk : getProp v dc = .ok (.str s)) (hf : lookupHandler H s = none)
    (fb : Unit → R) : dispatch v H dc (some fb) = .ok (fb ()) := by
  simp [dispatch, hk, jsKeyString, hf]

theorem dispatch_incomplete {R : Type} {v : JSValue} {dc s : String}
    {H : HandlerTable R}
    (hk : getProp v dc = .ok (.str s)) (hf : lookupHandler H s = none) :
    dispatch v H dc none = .error ⟨matcherIncompleteMsg⟩ := by
  simp [dispatch, hk, jsKeyString, hf]

theorem matchRun_valid {R : Type} {v : JSValue} {dc : String}
    (h : isUnion v dc = true) (H : HandlerTable R) :
    matchRun v dc H = dispatch v H dc none := by
  simp [matchRun, matchOp, guard, h, Except.bind]

theorem matchWithDefaultRun_valid {R : Type} {v : JSValue} {dc : String}
    (h : isUnion v dc = true) (H : HandlerTable R) :
    matchWithDefaultRun v dc H =
      dispatch v H dc
        ((lookupHandler H "Default").map
          (fun d => fun _ : Unit => d JSValue.undefined)) := by
  simp [matchWithDefaultRun, matchWithDefaultOp, guard, h, Except.bind]

theorem mapRun_valid {v : JSValue} {dc : String}
    (h : isUnion v dc = true) (M : HandlerTable JSValue) :
    mapRun v dc M = dispatch v M dc (some (fun _ => v)) := by
  simp [mapRun, mapOp, guard, h, Except.bind]

theorem mapAllRun_valid {v : JSValue} {dc : String}
    (h : isUnion v dc = true) (M : HandlerTable JSValue) :
    mapAllRun v dc M = dispatch v M dc none := by
  simp [mapAllRun, mapAllOp, guard, h, Except.bind]

/-- C1: for every value v that passes the validity predicate and every
handler table containing a handler for the discriminant value of v, match
applied to v and then to the table returns exactly the result of applying
that handler to v. -/
theorem match_applies_table_entry {R : Type} (v : JSValue) (dc s : String)
    (H : HandlerTable R) (f : JSValue → R)
    (hv : isUnion v dc = true) (hk : getProp v dc = .ok (.str s))
    (hf : lookupHandler H s = some f) :
    matchRun v dc H = .ok (f v) := by
  rw [matchRun_valid hv, dispatch_found hk hf]

/-- Witness for C1: the circle example dispatches to the circle handler
and returns its result on the full value. -/
theorem match_applies_table_entry_witness :
    isUnion vCircle "type" = true ∧
    lookupHandler matcherCR "circle" = some radiusHandler ∧
    matchRun vCircle "type" matcherCR = .ok (radiusHandler vCircle) :=
  ⟨by rfl, by rfl,
   match_applies_table_entry vCircle "type" "circle" matcherCR radiusHandler
     (by rfl) (by rfl) (by rfl)⟩

/-- C2: for every valid value whose discriminant has no usable entry in the
transformation table, map returns the input value itself (including its
reference tag), and in particular map with the empty table is the
identity. -/
theorem map_identity_when_unhandled (v : JSValue) (dc s : String)
    (M : HandlerTable JSValue)
    (hv : isUnion v dc = true) (hk : getProp v dc = .ok (.str s))
    (hm : lookupHandler M s = none) :
    mapRun v dc M = .ok v := by
  rw [mapRun_valid hv, dispatch_fallback hk hm]

/-- Witness for C2: the rectangle passes unchanged through a circle-only
mapper and through the empty mapper. -/
theorem map_identity_when_unhandled_witness :
    isUnion vRect "type" = true ∧
    lookupHandler circleOnlyMapper "rectangle" = none ∧
    mapRun vRect "type" circleOnlyMapper = .ok vRect ∧
    mapRun vRect "type" ([] : HandlerTable JSValue) = .ok vRect :=
  ⟨by rfl, by rfl,
   map_identity_when_unhandled vRect "type" "rectangle" circleOnlyMapper
     (by rfl) (by rfl) (by rfl),
   map_identity_when_unhandled vRect "type" "rectangle" []
     (by rfl) (by rfl) (by rfl)⟩

/-- Counterexample to C3: the claim says a map handler receives only the
payload with the discriminant field stripped.  In the code the dispatcher
applies the handler to the whole union value, so a circle handler that
reads the type field off its argument obtains the string circle; under the
claim it would obtain undefined. -/
theorem map_handler_sees_discriminant_counterexample :
    mapRun vCircle "type" circleTypeReaderMapper = .ok (.str "circle") := by
  rfl

/-- C3 amended: all four operations pass the entire value, discriminant
field included, to the matched handler; the payload-only view for map and
mapAll exists in the static types but not at runtime. -/
theorem handlers_receive_full_value {R : Type} (v : JSValue) (dc s : String)
    (H : HandlerTable R) (f : JSValue → R)
    (M : HandlerTable JSValue) (g : JSValue → JSValue)
    (hv : isUnion v dc = true) (hk : getProp v dc = .ok (.str s))
    (hH : lookupHandler H s = some f) (hM : lookupHandler M s = some g) :
    matchRun v dc H = .ok (f v) ∧
    matchWithDefaultRun v dc H = .ok (f v) ∧
    mapRun v dc M = .ok (g v) ∧
    mapAllRun v dc M = .ok (g v) := by
  refine ⟨?_, ?_, ?_, ?_⟩
  · rw [matchRun_valid hv, dispatch_found hk hH]
  · rw [matchWithDefaultRun_valid hv, dispatch_found hk hH]
  · rw [mapRun_valid hv, dispatch_found hk hM]
  · rw [mapAllRun_valid hv, dispatch_found hk hM]

/-- Witness for the amended C3: on the circle value every operation hands
the handler the full value, so the radius and type fields are both
readable from the handler argument. -/
theorem handlers_receive_full_value_witness :
    isUnion vCircle "type" = true ∧
    matchRun vCircle "type" matcherCR = .ok (radiusHandler vCircle) ∧
    mapRun vCircle "type" circleTypeReaderMapper =
      .ok (typeReader vCircle) :=
  ⟨by rfl,
   (handlers_receive_full_value vCircle "type" "circle" matcherCR
      radiusHandler circleTypeReaderMapper typeReader
      (by rfl) (by rfl) (by rfl) (by rfl)).1,
   (handlers_receive_full_value vCircle "type" "circle" matcherCR
      radiusHandler circleTypeReaderMapper typeReader
      (by rfl) (by rfl) (by rfl) (by rfl)).2.2.1⟩

/-- C4: for every valid value whose discriminant has no usable entry in the
supplied table, match and mapAll both fail with the incomplete-matcher
error carrying its fixed message, producing no result. -/
theorem incomplete_matcher_when_unhandled {R : Type} (v : JSValue)
    (dc s : String) (H : HandlerTable R) (M : HandlerTable JSValue)
    (hv : isUnion v dc = true) (hk : getProp v dc = .ok (.str s))
    (hH : lookupHandler H s = none) (hM : lookupHandler M s = none) :
    matchRun v dc H = .error ⟨matcherIncompleteMsg⟩ ∧
    mapAllRun v dc M = .error ⟨matcherIncompleteMsg⟩ := by
  refine ⟨?_, ?_⟩
  · rw [matchRun_valid hv, dispatch_incomplete hk hH]
  · rw [mapAllRun_valid hv, dispatch_incomplete hk hM]

/-- Witness for C4: mapAll on the rectangle with a circle-only table fails
with the incomplete-matcher message, and so does match. -/
theorem incomplete_matcher_when_unhandled_witness :
    isUnion vRect "type" = true ∧
    matchRun vRect "type" circleOnlyMapper =
      .error ⟨matcherIncompleteMsg⟩ ∧
    mapAllRun vRect "type" circleOnlyMapper =
      .error ⟨matcherIncompleteMsg⟩ :=
  ⟨by rfl,
   (incomplete_matcher_when_unhandled vRect "type" "rectangle"
      circleOnlyMapper circleOnlyMapper
      (by rfl) (by rfl) (by rfl) (by rfl)).1,
   (incomplete_matcher_when_unhandled vRect "type" "rectangle"
      circleOnlyMapper circleOnlyMapper
      (by rfl) (by rfl) (by rfl) (by rfl)).2⟩

/-- C5: for every value failing the validity predicate, each of the four
operations fails at the first, value-only application with the
invalid-input error and its fixed message, before any handler table is
supplied and without invoking any handler. -/
theorem invalid_input_fails_before_table (R : Type) (v : JSValue)
    (dc : String) (hinv : isUnion v dc = false) :
    @matchOp R v dc = .error ⟨invalidInputMsg⟩ ∧
    @matchWithDefaultOp R v dc = .error ⟨invalidInputMsg⟩ ∧
    mapOp v dc = .error ⟨invalidInputMsg⟩ ∧
    mapAllOp v dc = .error ⟨invalidInputMsg⟩ := by
  refine ⟨?_, ?_, ?_, ?_⟩ <;>
    simp [matchOp, matchWithDefaultOp, mapOp, mapAllOp, guard, hinv]

/-- Witness for C5: the empty object is rejected by every operation at its
first application. -/
theorem invalid_input_fails_before_table_witness :
    isUnion vEmpty "type" = false ∧
    @matchOp JSValue vEmpty "type" = .error ⟨invalidInputMsg⟩ ∧
    mapOp vEmpty "type" = .error ⟨invalidInputMsg⟩ :=
  ⟨by rfl,
   (invalid_input_fails_before_table JSValue vEmpty "type" (by rfl)).1,
   (invalid_input_fails_before_table JSValue vEmpty "type" (by rfl)).2.2.1⟩

/-- C6: for every valid value and partial table with a Default entry,
matchWithDefault returns the partial entry applied to the value when the
discriminant has one, and otherwise the result of invoking the Default
handler with no arguments.  The Default entry takes no parameters, so it is
modelled as a constant function of its ignored argument. -/
theorem matchWithDefault_entry_or_default {R : Type} (v : JSValue)
    (dc s : String) (d : Unit → R) (P : HandlerTable R)
    (hv : isUnion v dc = true) (hk : getProp v dc = .ok (.str s))
    (hnd : lookupKey P "Default" = none) :
    matchWithDefaultRun v dc (("Default", some (fun _ => d ())) :: P) =
      .ok (match lookupHandler P s with
           | some f => f v
           | none => d ()) := by
  rw [matchWithDefaultRun_valid hv]
  cases hP : lookupHandler P s with
  | some f =>
      have hkey : lookupKey P s = some (some f) := by
        unfold lookupHandler at hP
        cases hkk : lookupKey P s with
        | none => rw [hkk] at hP; simp at hP
        | some a => rw [hkk] at hP; simp at hP; rw [hP]
      have htab :
          lookupHandler (("Default", some (fun _ => d ())) :: P) s = some f := by
        simp [lookupHandler, lookupKey, hkey]
      rw [dispatch_found hk htab]
  | none =>
      have hfb :
          lookupHandler (("Default", some (fun _ => d ())) :: P) "Default" =
            some (fun _ => d ()) := by
        simp [lookupHandler, lookupKey, hnd]
      cases hkk : lookupKey P s with
      | some a =>
          have ha : a = none := by
            unfold lookupHandler at hP; rw [hkk] at hP; simpa using hP
          subst ha
          have htab :
              lookupHandler (("Default", some (fun _ => d ())) :: P) s =
                none := by
            simp [lookupHandler, lookupKey, hkk]
          rw [hfb]
          simp only [Option.map_some']
          rw [dispatch_fallback hk htab]
      | none =>
          by_cases hs : s = "Default"
          · subst hs
            have htab :
                lookupHandler (("Default", some (fun _ => d ())) :: P)
                  "Default" = some (fun _ => d ()) := hfb
            rw [dispatch_found hk htab]
          · have hbs : (("Default" : String) == s) = false := by
              simp [Ne.symm hs]
            have htab :
                lookupHandler (("Default", some (fun _ => d ())) :: P) s =
                  none := by
              simp [lookupHandler, lookupKey, hkk, hbs]
            rw [hfb]
            simp only [Option.map_some']
            rw [dispatch_fallback hk htab]

/-- Witness for C6: the triangle falls through to Default, while the circle
hits its explicit entry, in the same Default-carrying table. -/
theorem matchWithDefault_entry_or_default_witness :
    isUnion vTriangle "type" = true ∧
    matchWithDefaultRun vTriangle "type"
      (("Default", some (fun _ => JSValue.str "other")) :: circleLabelTable) =
      .ok (.str "other") ∧
    matchWithDefaultRun vCircle "type"
      (("Default", some (fun _ => JSValue.str "other")) :: circleLabelTable) =
      .ok (.str "c") :=
  ⟨by rfl,
   by
     have h := matchWithDefault_entry_or_default vTriangle "type" "triangle"
       (fun _ => JSValue.str "other") circleLabelTable
       (by rfl) (by rfl) (by rfl)
     exact h,
   by
     have h := matchWithDefault_entry_or_default vCircle "type" "circle"
       (fun _ => JSValue.str "other") circleLabelTable
       (by rfl) (by rfl) (by rfl)
     exact h⟩

/-- Counterexample to C7: the claim says isUnion returns false for arrays,
but the source only tests typeof, which arrays pass, so an array carrying a
string discriminant property validates as a union. -/
theorem isUnion_accepts_array_counterexample :
    isUnion arrWithType "type" = true := by rfl

/-- C7 amended: isUnion never throws and returns false on null, undefined
and all primitives; on objects and on arrays alike it returns true exactly
when the discriminant property holds a string, the empty string included.
Arrays are not specially excluded, they are merely record-like values that
usually lack the discriminant field. -/
theorem isUnion_characterization (dc : String) :
    isUnion JSValue.null dc = false ∧
    isUnion JSValue.undefined dc = false ∧
    (∀ s : String, isUnion (JSValue.str s) dc = false) ∧
    (∀ n : Int, isUnion (JSValue.num n) dc = false) ∧
    (∀ b : Bool, isUnion (JSValue.bool b) dc = false) ∧
    (∀ fs r, isUnion (JSValue.obj fs r) dc =
      (typeofJS (getPropD (JSValue.obj fs r) dc) == "string")) ∧
    (∀ es ps r, isUnion (JSValue.arr es ps r) dc =
      (typeofJS (getPropD (JSValue.arr es ps r) dc) == "string")) ∧
    (∀ r, isUnion (JSValue.obj [(dc, JSValue.str "")] r) dc = true) := by
  refine ⟨?_, ?_, ?_, ?_, ?_, ?_, ?_, ?_⟩ <;>
    simp [isUnion, typeofJS, jsStrictEq, getProp, getPropD, lookupKey]

/-- C8: every method of the binding factory, given a handler table, returns
a one-argument function that behaves exactly like the corresponding direct
operation applied value-first with the bound discriminant; in particular
the validity predicate is re-applied to the input on every invocation, so
an invalid value fails with the invalid-input error on each call. -/
theorem createPipeHandlers_matches_direct (R : Type) (dc : String)
    (H : HandlerTable R) (M : HandlerTable JSValue) (v : JSValue) :
    ((createPipeHandlers R dc).pipeMatch H v = matchRun v dc H) ∧
    ((createPipeHandlers R dc).pipeMatchWithDefault H v =
      matchWithDefaultRun v dc H) ∧
    ((createPipeHandlers R dc).pipeMap M v = mapRun v dc M) ∧
    ((createPipeHandlers R dc).pipeMapAll M v = mapAllRun v dc M) ∧
    (isUnion v dc = false →
      (createPipeHandlers R dc).pipeMatch H v = .error ⟨invalidInputMsg⟩ ∧
      (createPipeHandlers R dc).pipeMatchWithDefault H v =
        .error ⟨invalidInputMsg⟩ ∧
      (createPipeHandlers R dc).pipeMap M v = .error ⟨invalidInputMsg⟩ ∧
      (createPipeHandlers R dc).pipeMapAll M v = .error ⟨invalidInputMsg⟩) := by
  refine ⟨rfl, rfl, rfl, rfl, fun hinv => ?_⟩
  refine ⟨?_, ?_, ?_, ?_⟩ <;>
    simp [createPipeHandlers, matchOp, matchWithDefaultOp, mapOp, mapAllOp,
      guard, hinv, Except.bind]

/-- Witness for C8: the bound match agrees with direct match on the circle
and rejects the empty object with the invalid-input error. -/
theorem createPipeHandlers_matches_direct_witness :
    isUnion vEmpty "type" = false ∧
    (createPipeHandlers JSValue "type").pipeMatch matcherCR vEmpty =
      .error ⟨invalidInputMsg⟩ ∧
    (createPipeHandlers JSValue "type").pipeMatch matcherCR vCircle =
      matchRun vCircle "type" matcherCR :=
  ⟨by rfl,
   ((createPipeHandlers_matches_direct JSValue "type" matcherCR
       circleOnlyMapper vEmpty).2.2.2.2 (by rfl)).1,
   (createPipeHandlers_matches_direct JSValue "type" matcherCR
       circleOnlyMapper vCircle).1⟩

/-- Counterexample to C9: the claim says is never fails even on null, but
evaluating union[discriminant] on a null input throws a TypeError, so the
call fails instead of returning false. -/
theorem is_throws_on_null_counterexample :
    isOp JSValue.null "circle" "type" = .error ⟨readNullMsg⟩ := by rfl

/-- C9 amended: is never calls the validity predicate and, for every input
other than null and undefined (objects, arrays and all primitives),
returns the boolean strict-equality comparison of the discriminant
property against the tag; on null or undefined it throws a TypeError from
the property access instead of returning a boolean. -/
theorem is_strict_equality_nonnull (v : JSValue) (tag dc : String)
    (h1 : v ≠ JSValue.null) (h2 : v ≠ JSValue.undefined) :
    isOp v tag dc = .ok (jsStrictEq (getPropD v dc) (.str tag)) := by
  cases v
  case null => exact absurd rfl h1
  case undefined => exact absurd rfl h2
  all_goals rfl

/-- Witness for C9 amended: a number primitive compares to false without
throwing, and the circle value compares to true on its own tag. -/
theorem is_strict_equality_nonnull_witness :
    (JSValue.num 5 ≠ JSValue.null) ∧
    isOp (JSValue.num 5) "circle" "type" =
      .ok (jsStrictEq (getPropD (JSValue.num 5) "type") (.str "circle")) ∧
    isOp vCircle "circle" "type" = .ok true :=
  ⟨fun h => JSValue.noConfusion h,
   is_strict_equality_nonnull (JSValue.num 5) "circle" "type"
     (fun h => JSValue.noConfusion h) (fun h => JSValue.noConfusion h),
   (is_strict_equality_nonnull vCircle "circle" "type"
     (by simp [vCircle]) (by simp [vCircle])).trans (by rfl)⟩

/-- C10: a table entry whose key matches the discriminant but whose bound
value is undefined behaves exactly like an absent entry: match raises the
incomplete-matcher error, matchWithDefault falls back to Default, and map
returns the value by identity. -/
theorem undefined_entry_behaves_as_absent {R : Type} (v : JSValue)
    (dc s : String) (H : HandlerTable R) (D : HandlerTable R)
    (g : JSValue → R) (M : HandlerTable JSValue)
    (hv : isUnion v dc = true) (hk : getProp v dc = .ok (.str s))
    (hH : lookupKey H s = some none)
    (hD : lookupKey D s = some none)
    (hDd : lookupHandler D "Default" = some g)
    (hM : lookupKey M s = some none) :
    matchRun v dc H = .error ⟨matcherIncompleteMsg⟩ ∧
    matchWithDefaultRun v dc D = .ok (g JSValue.undefined) ∧
    mapRun v dc M = .ok v := by
  have hH' := lookupHandler_none_of_undef hH
  have hD' := lookupHandler_none_of_undef hD
  have hM' := lookupHandler_none_of_undef hM
  refine ⟨?_, ?_, ?_⟩
  · rw [matchRun_valid hv, dispatch_incomplete hk hH']
  · rw [matchWithDefaultRun_valid hv, hDd]
    simp only [Option.map_some']
    rw [dispatch_fallback hk hD']
  · rw [mapRun_valid hv, dispatch_fallback hk hM']

/-- Witness for C10: the circle value with a present-but-undefined circle
entry hits the incomplete-matcher error, the Default fallback, and the
identity passthrough respectively. -/
theorem undefined_entry_behaves_as_absent_witness :
    isUnion vCircle "type" = true ∧
    matchRun vCircle "type" undefEntryTable =
      .error ⟨matcherIncompleteMsg⟩ ∧
    matchWithDefaultRun vCircle "type" undefEntryWithDefault =
      .ok (.str "other") ∧
    mapRun vCircle "type" undefEntryTable = .ok vCircle :=
  ⟨by rfl,
   (undefined_entry_behaves_as_absent vCircle "type" "circle"
      undefEntryTable undefEntryWithDefault otherHandler undefEntryTable
      (by rfl) (by rfl) (by rfl) (by rfl) (by rfl) (by rfl)).1,
   (undefined_entry_behaves_as_absent vCircle "type" "circle"
      undefEntryTable undefEntryWithDefault otherHandler undefEntryTable
      (by rfl) (by rfl) (by rfl) (by rfl) (by rfl) (by rfl)).2.1,
   (undefined_entry_behaves_as_absent vCircle "type" "circle"
      undefEntryTable undefEntryWithDefault otherHandler undefEntryTable
      (by rfl) (by rfl) (by rfl) (by rfl) (by rfl) (by rfl)).2.2⟩

end Dismatch
